import Mathlib

/-!
Verification of the spreadsheet-dashboard core engine: value coercers,
column-type classifier, dataset summarizer and chart projector.

The definitions below are shallow embeddings of the TypeScript sources:
  * `detect-column-types.ts` — `isNumeric`, `isBooleanLike`, `isDateLike`,
    `detectColumnTypes`;
  * `app/page.tsx` — `toNumber`, `chartConfig`, `summary`;
  * the alternative page module — `isExcelSerial`, `excelSerialToDate`,
    `formatDateLabel`.

Modelling conventions:
  * JavaScript numbers are modelled as exact rationals (`ℚ`).  Every number
    that can appear in a parsed spreadsheet cell is a finite double; double
    rounding is not modelled (all concrete values used in the development are
    small integers, where doubles are exact).  The threshold comparisons
    `ratio > 0.7` / `ratio > 0.6` are exact here; with sample sizes capped at
    50, the distance between any count/size ratio and 7/10 or 3/5 vastly
    exceeds one double ulp, so exact comparison agrees with the double one.
  * Rational arithmetic is written with `mkRat` on numerators/denominators
    (`ratSub`, ratio construction) so that every definition reduces inside
    the kernel; `ratSub_eq` proves it coincides with subtraction on `ℚ`.
  * `null` and `undefined` are both modelled by `Value.vNull`: every coercer
    in the sources treats them identically.
  * The platform routines `Number(string)`, `String.prototype.trim`,
    `toLowerCase` and truthiness are modelled concretely (`jsNumber`,
    `jsTrim`, `jsToLower`, `jsTruthy`) following ECMA-262; `Date.parse` is
    kept as an explicit parameter `dp : String → Option Int` (milliseconds
    since the Unix epoch, `none` for NaN) in every definition that calls it,
    so the theorems hold for an arbitrary parse routine.  `dpISO` is a
    concrete instance covering the ISO `YYYY-MM-DD` form whose behaviour
    ECMA-262 specifies; implementation-defined formats are unparseable there.
  * `toLocaleDateString` is locale dependent, so date formatting is likewise
    a parameter `fmt : Int → String` applied to a date's time value.
-/

/-- Raw cell value: the dynamic values a parsed sheet row can hold.
`vNull` stands for both `null` and `undefined`; `vDate none` is an invalid
`Date` (NaN time value), `vDate (some t)` a valid one with time `t` in
milliseconds since the Unix epoch; `vObj` is any other non-`Date` object. -/
inductive Value where
  | vNull : Value
  | vBool : Bool → Value
  | vNum : ℚ → Value
  | vStr : String → Value
  | vDate : Option Int → Value
  | vObj : Value
deriving DecidableEq

/-- Result of JavaScript numeric conversion: NaN, signed infinity, or a
finite number (exact rational model of a double). -/
inductive JSNum where
  | nan : JSNum
  | inf : Bool → JSNum
  | fin : ℚ → JSNum
deriving DecidableEq

/-- A row object: association list from column name to raw value, in key
insertion order (JavaScript objects cannot repeat keys). -/
abbrev Row := List (String × Value)

/-- Property access `row[col]`: a missing key yields `undefined`. -/
def getCell (r : Row) (c : String) : Value :=
  (List.lookup c r).getD Value.vNull

/-- Property access through an optional key; `row[undefined]` is `undefined`. -/
def getCellOpt (r : Row) (c? : Option String) : Value :=
  match c? with
  | some c => getCell r c
  | none => Value.vNull

/-- Exact subtraction on `ℚ`, written with `mkRat` so it reduces in the
kernel (`ratSub_eq` below shows it is ordinary subtraction). -/
def ratSub (a b : ℚ) : ℚ :=
  mkRat (a.num * (b.den : Int) - b.num * (a.den : Int)) (a.den * b.den)

/-- Truncation toward zero of a rational, as `ToIntegerOrInfinity` does. -/
def ratTrunc (q : ℚ) : Int :=
  if q.num < 0 then -(Int.fdiv (-q.num) (q.den : Int)) else Int.fdiv q.num (q.den : Int)

/-- Whitespace for `String.prototype.trim` (ECMA-262 WhiteSpace and
LineTerminator code points; the common ones suffice for this model). -/
def isJSWhitespace (c : Char) : Bool :=
  c == ' ' || c == '\t' || c == '\n' || c == '\r' ||
    c.toNat == 11 || c.toNat == 12 || c.toNat == 160 || c.toNat == 65279

/-- Model of `String.prototype.trim`. -/
def jsTrim (s : String) : String :=
  ⟨((s.toList.dropWhile isJSWhitespace).reverse.dropWhile isJSWhitespace).reverse⟩

/-- Model of `String.prototype.toLowerCase` (ASCII range; the classifier only
compares against ASCII keywords). -/
def jsToLower (s : String) : String :=
  ⟨s.toList.map Char.toLower⟩

/-- Model of `value.replace(/,/g, "")`: remove every comma. -/
def stripCommas (s : String) : String :=
  ⟨s.toList.filter (fun c => !(c == ','))⟩

/-- Decimal digit test. -/
def isDigitC (c : Char) : Bool :=
  '0' ≤ c && c ≤ '9'

/-- Value of a decimal digit character. -/
def digitVal (c : Char) : Nat :=
  c.toNat - 48

/-- Natural number denoted by a list of decimal digits. -/
def natOfDigits (cs : List Char) : Nat :=
  cs.foldl (fun a c => 10 * a + digitVal c) 0

/-- Hexadecimal digit test. -/
def isHexDigitC (c : Char) : Bool :=
  isDigitC c || ('a' ≤ c && c ≤ 'f') || ('A' ≤ c && c ≤ 'F')

/-- Value of a hexadecimal digit character. -/
def hexVal (c : Char) : Nat :=
  if isDigitC c then digitVal c
  else if 'a' ≤ c && c ≤ 'f' then c.toNat - 87
  else c.toNat - 55

/-- Radix-integer literal body (after `0x`/`0o`/`0b`): all digits valid and
at least one of them, else NaN. -/
def parseRadix (pred : Char → Bool) (val : Char → Nat) (radix : Nat)
    (cs : List Char) : Option ℚ :=
  if !cs.isEmpty && cs.all pred then
    some ((cs.foldl (fun a c => radix * a + val c) 0 : Nat) : ℚ)
  else none

/-- Exact value of a decimal literal `ip . fp e(±)ex`, built as a single
`mkRat` so it reduces in the kernel. -/
def decValue (ip fp : List Char) (expNeg : Bool) (ex : Nat) : ℚ :=
  let m : Int := (natOfDigits (ip ++ fp) : Nat)
  if expNeg then mkRat m (10 ^ (fp.length + ex))
  else mkRat (m * (10 ^ ex : Nat)) (10 ^ fp.length)

/-- Optional exponent part of a decimal literal; anything trailing is a
parse failure (ECMA-262 `StrDecimalLiteral` accepts no garbage). -/
def parseExpPart (ip fp : List Char) (cs : List Char) : Option ℚ :=
  match cs with
  | [] => some (decValue ip fp false 0)
  | c :: rest =>
    if c == 'e' || c == 'E' then
      let sd : Bool × List Char :=
        match rest with
        | '+' :: r => (false, r)
        | '-' :: r => (true, r)
        | r => (false, r)
      if !sd.2.isEmpty && sd.2.all isDigitC then
        some (decValue ip fp sd.1 (natOfDigits sd.2))
      else none
    else none

/-- Unsigned decimal literal: digits, optional fraction, optional exponent;
at least one digit around the point. -/
def parseUnsignedDec (cs : List Char) : Option ℚ :=
  let ip := cs.takeWhile isDigitC
  let rest := cs.dropWhile isDigitC
  match rest with
  | '.' :: rest2 =>
    let fp := rest2.takeWhile isDigitC
    let rest3 := rest2.dropWhile isDigitC
    if ip.isEmpty && fp.isEmpty then none else parseExpPart ip fp rest3
  | _ => if ip.isEmpty then none else parseExpPart ip [] rest

/-- Signed decimal literal or `Infinity`/`-Infinity`. -/
def jsNumberDec (t : List Char) : JSNum :=
  let sb : Bool × List Char :=
    match t with
    | '+' :: r => (false, r)
    | '-' :: r => (true, r)
    | r => (false, r)
  if sb.2 = "Infinity".toList then JSNum.inf sb.1
  else
    match parseUnsignedDec sb.2 with
    | some q => JSNum.fin (if sb.1 then -q else q)
    | none => JSNum.nan

/-- Model of the ECMAScript `Number(string)` conversion (`StringToNumber`):
trim, empty string is `0`, radix literals `0x`/`0o`/`0b`, otherwise an
optionally signed decimal literal or `Infinity`; anything else is NaN.
Double rounding and overflow of huge decimal literals to `Infinity` are not
modelled; no claim evaluates the parser near those regimes. -/
def jsNumber (s : String) : JSNum :=
  match (jsTrim s).toList with
  | [] => JSNum.fin 0
  | '0' :: x :: rest =>
    if x == 'x' || x == 'X' then
      match parseRadix isHexDigitC hexVal 16 rest with
      | some q => JSNum.fin q
      | none => JSNum.nan
    else if x == 'o' || x == 'O' then
      match parseRadix (fun c => '0' ≤ c && c ≤ '7') digitVal 8 rest with
      | some q => JSNum.fin q
      | none => JSNum.nan
    else if x == 'b' || x == 'B' then
      match parseRadix (fun c => c == '0' || c == '1') digitVal 2 rest with
      | some q => JSNum.fin q
      | none => JSNum.nan
    else jsNumberDec ('0' :: x :: rest)
  | t => jsNumberDec t

/-- Fuel-driven digit printer (structural recursion so the kernel reduces it). -/
def natToStringAux : Nat → Nat → List Char
  | 0, _ => []
  | fuel + 1, n =>
    if n < 10 then [Char.ofNat (48 + n)]
    else natToStringAux fuel (n / 10) ++ [Char.ofNat (48 + n % 10)]

/-- Decimal rendering of a natural number. -/
def natToString (n : Nat) : String :=
  ⟨natToStringAux (n + 1) n⟩

/-- Decimal rendering of an integer. -/
def intToString (i : Int) : String :=
  if i < 0 then "-" ++ natToString (-i).toNat else natToString i.toNat

/-- Rendering of a JavaScript number as a string.  Integers match the
ECMAScript `Number::toString` output exactly; the fraction form used for
non-integral rationals is a placeholder (JavaScript prints a shortest
decimal form), and no claim evaluates it on a non-integral value. -/
def numToString (q : ℚ) : String :=
  if q.den = 1 then intToString q.num
  else intToString q.num ++ "/" ++ natToString q.den

/-- Model of `String(value)`.  `vNull` prints as `null`; the rendering of a
valid `Date` object is locale/timezone dependent and unreachable from
`formatDateLabel` (its first branch catches valid dates), so a placeholder
is used there. -/
def jsToString (v : Value) : String :=
  match v with
  | Value.vNull => "null"
  | Value.vBool b => if b then "true" else "false"
  | Value.vNum q => numToString q
  | Value.vStr s => s
  | Value.vDate none => "Invalid Date"
  | Value.vDate (some t) => "[Date " ++ intToString t ++ "]"
  | Value.vObj => "[object Object]"

/-- Truthiness of a value (ECMAScript `ToBoolean`); NaN does not occur in
the model, all modelled numbers being finite rationals. -/
def jsTruthy (v : Value) : Bool :=
  match v with
  | Value.vNull => false
  | Value.vBool b => b
  | Value.vNum q => !(q == 0)
  | Value.vStr s => !(s == "")
  | Value.vDate _ => true
  | Value.vObj => true

/-- Embedding of `isNumeric` from `detect-column-types.ts`: null/undefined
are not numeric; a number is (all modelled numbers are finite and not NaN);
a string is numeric when its trim is non-empty and, with commas removed, it
parses to a finite number; everything else is not. -/
def isNumeric (v : Value) : Bool :=
  match v with
  | Value.vNull => false
  | Value.vNum _ => true
  | Value.vStr s =>
    let trimmed := jsTrim s
    if trimmed == "" then false
    else
      match jsNumber (stripCommas trimmed) with
      | JSNum.fin _ => true
      | _ => false
  | _ => false

/-- The keyword list of `isBooleanLike`. -/
def boolStrings : List String :=
  ["true", "false", "yes", "no", "y", "n", "0", "1"]

/-- Embedding of `isBooleanLike` from `detect-column-types.ts`. -/
def isBooleanLike (v : Value) : Bool :=
  match v with
  | Value.vBool _ => true
  | Value.vNum q => q == 0 || q == 1
  | Value.vStr s => boolStrings.contains (jsToLower (jsTrim s))
  | _ => false

/-- Embedding of `isDateLike` from `detect-column-types.ts`: a valid `Date`
instance; or a string whose trim is non-empty and parses via `Date.parse`
(the parameter `dp`).  Numbers fall through to the final `return false` —
the source only carries a comment that serial support *could* be added. -/
def isDateLike (dp : String → Option Int) (v : Value) : Bool :=
  match v with
  | Value.vDate (some _) => true
  | Value.vStr s =>
    let trimmed := jsTrim s
    if trimmed == "" then false else (dp trimmed).isSome
  | _ => false

/-- Embedding of `toNumber` from `app/page.tsx`: numbers pass through,
strings are comma-stripped and fed to `Number` with NaN mapped to `0`, and
every other value is `0`. -/
def toNumber (v : Value) : JSNum :=
  match v with
  | Value.vNum q => JSNum.fin q
  | Value.vStr s =>
    match jsNumber (stripCommas s) with
    | JSNum.nan => JSNum.fin 0
    | x => x
  | _ => JSNum.fin 0

/-- Embedding of `isExcelSerial`: a finite number strictly between 25000 and
60000. -/
def isExcelSerial (v : Value) : Bool :=
  match v with
  | Value.vNum q => decide (25000 < q ∧ q < 60000)
  | _ => false

/-- Embedding of `excelSerialToDate`, returning the time value (ms) of the
constructed `Date`: `Math.floor(serial - 25569) * 86400 * 1000`. -/
def excelSerialToDate (q : ℚ) : Int :=
  (ratSub q 25569).floor * 86400000

/-- Embedding of `formatDateLabel`.  The source is an if-chain of runtime
type tests; the tests are disjoint by constructor, so it is written as one
match: a valid `Date` formats its own time; a number in the serial range
formats the converted time; a string formats its parse when `Date.parse`
succeeds on the trimmed form; everything else falls back to `String(value)`.
`fmt` models `Date.prototype.toLocaleDateString` on a time value. -/
def formatDateLabel (fmt : Int → String) (dp : String → Option Int)
    (v : Value) : String :=
  match v with
  | Value.vDate (some t) => fmt t
  | Value.vNum q =>
    if 25000 < q ∧ q < 60000 then fmt (excelSerialToDate q)
    else jsToString (Value.vNum q)
  | Value.vStr s =>
    match dp (jsTrim s) with
    | some t => fmt t
    | none => jsToString (Value.vStr s)
  | w => jsToString w

/-- Days from the Unix epoch to the civil date `y-m-d` (proleptic Gregorian,
Hinnant's algorithm; numerators are arranged to be non-negative at each
division so every division convention agrees). -/
def daysFromCivil (y : Int) (m d : Nat) : Int :=
  let yy : Int := if m ≤ 2 then y - 1 else y
  let era : Int := (if 0 ≤ yy then yy else yy - 399).fdiv 400
  let yoe : Nat := (yy - era * 400).toNat
  let mp : Nat := (m + 9) % 12
  let doy : Nat := (153 * mp + 2) / 5 + d - 1
  let doe : Nat := yoe * 365 + yoe / 4 - yoe / 100 + doy
  era * 146097 + (doe : Int) - 719468

/-- Civil date `(y, m, d)` of a day count from the Unix epoch (inverse of
`daysFromCivil`). -/
def civilFromDays (z0 : Int) : Int × Nat × Nat :=
  let z : Int := z0 + 719468
  let era : Int := (if 0 ≤ z then z else z - 146096).fdiv 146097
  let doe : Nat := (z - era * 146097).toNat
  let yoe : Nat := (doe - doe / 1460 + doe / 36524 - doe / 146096) / 365
  let doy : Nat := doe - (365 * yoe + yoe / 4 - yoe / 100)
  let mp : Nat := (5 * doy + 2) / 153
  let d : Nat := doy - (153 * mp + 2) / 5 + 1
  let m : Nat := if mp < 10 then mp + 3 else mp - 9
  (era * 400 + (yoe : Int) + (if m ≤ 2 then 1 else 0), m, d)

/-- Zero-padded decimal rendering. -/
def padNat (width n : Nat) : String :=
  let s := natToString n
  ⟨List.replicate (width - s.length) '0'⟩ ++ s

/-- Model of `date.toISOString().slice(0, 10)` for a time value in
milliseconds: the UTC calendar date as `YYYY-MM-DD` (years 0–9999; the
expanded-year forms of `toISOString` do not occur in this development). -/
def toISOSlice (ms : Int) : String :=
  let c := civilFromDays (ms.fdiv 86400000)
  padNat 4 c.1.toNat ++ "-" ++ padNat 2 c.2.1 ++ "-" ++ padNat 2 c.2.2

/-- Modelled from the spec: the platform's general date-parsing routine
(`Date.parse`).  Only the ISO `YYYY-MM-DD` date form, the one format
ECMA-262 specifies, is modelled (valid month and day-of-month required,
interpreted as UTC midnight); implementation-defined formats are treated
as unparseable. -/
def dpISO (s : String) : Option Int :=
  match s.toList with
  | [y1, y2, y3, y4, '-', m1, m2, '-', d1, d2] =>
    if [y1, y2, y3, y4, m1, m2, d1, d2].all isDigitC then
      let y : Int := (natOfDigits [y1, y2, y3, y4] : Nat)
      let m : Nat := natOfDigits [m1, m2]
      let d : Nat := natOfDigits [d1, d2]
      let maxd : Nat :=
        if m = 2 then
          (if (y.emod 4 == 0 && y.emod 100 != 0) || y.emod 400 == 0 then 29 else 28)
        else if m == 4 || m == 6 || m == 9 || m == 11 then 30
        else 31
      if 1 ≤ m ∧ m ≤ 12 ∧ 1 ≤ d ∧ d ≤ maxd then
        some (daysFromCivil y m d * 86400000)
      else none
    else none
  | _ => none

/-- Model of `new Date(value)` as an optional time value (`none` for an
invalid date): numbers are clipped (|t| ≤ 8.64e15) and truncated, strings
are parsed with the same routine as `Date.parse`, a `Date` copies its time,
`null` converts to time 0 and booleans to 0/1, and a plain object converts
via its string form. -/
def jsNewDateMs (dp : String → Option Int) (v : Value) : Option Int :=
  match v with
  | Value.vNull => some 0
  | Value.vBool b => some (if b then 1 else 0)
  | Value.vNum q =>
    if q.num.natAbs ≤ 8640000000000000 * q.den then some (ratTrunc q) else none
  | Value.vStr s => dp s
  | Value.vDate t => t
  | Value.vObj => dp "[object Object]"

/-- The five semantic column types of `detect-column-types.ts`. -/
inductive ColumnType where
  | number : ColumnType
  | date : ColumnType
  | boolean : ColumnType
  | category : ColumnType
  | text : ColumnType
deriving DecidableEq

/-- Embedding of the `ColumnSchema` interface. -/
structure ColumnSchema where
  name : String
  type : ColumnType
deriving DecidableEq

/-- Column names of a dataset: `Object.keys(rows[0] ?? {})`, in insertion
order (empty for an empty dataset). -/
def columnNames (rows : List Row) : List String :=
  match rows with
  | [] => []
  | r :: _ => r.map Prod.fst

/-- The sampling loop of `detectColumnTypes`: the column's values from the
first `sampleSize` records, keeping those that are not null, not undefined
and not the empty string. -/
def sampleColumn (rows : List Row) (sampleSize : Nat) (col : String) : List Value :=
  ((rows.take sampleSize).map (fun r => getCell r col)).filter
    (fun v => !(v == Value.vNull) && !(v == Value.vStr ""))

/-- String values are compared trimmed in the distinct-value set; other
values as-is (the `.map` inside the `new Set(...)` construction). -/
def normalizeVal (v : Value) : Value :=
  match v with
  | Value.vStr s => Value.vStr (jsTrim s)
  | w => w

/-- Per-column body of `detectColumnTypes`: an empty sample is `text`;
otherwise the counts, the distinct normalized values (blank entries
excluded, as the `.filter` inside the `new Set(...)` does) and the
threshold cascade in source order.  The ratios are the exact rationals
`count / sample.length`, built with `mkRat`. -/
def detectType (dp : String → Option Int) (sample : List Value) : ColumnType :=
  if sample.isEmpty then ColumnType.text
  else
    let numericCount := (sample.filter isNumeric).length
    let booleanCount := (sample.filter isBooleanLike).length
    let dateCount := (sample.filter (isDateLike dp)).length
    let uniqueValues :=
      ((sample.map normalizeVal).filter
        (fun v => !(v == Value.vStr "") && !(v == Value.vNull))).dedup
    let uniqueRatio : ℚ := mkRat (uniqueValues.length : Int) sample.length
    if mkRat (numericCount : Int) sample.length > mkRat 7 10 then ColumnType.number
    else if mkRat (dateCount : Int) sample.length > mkRat 3 5 then ColumnType.date
    else if mkRat (booleanCount : Int) sample.length > mkRat 3 5 then ColumnType.boolean
    else if uniqueValues.length ≤ 20 ∧ uniqueRatio < mkRat 7 10 then ColumnType.category
    else ColumnType.text

/-- Embedding of `detectColumnTypes`: empty input gives an empty schema;
otherwise one `ColumnSchema` per key of the first record, in order, with
the type computed from the first `min(rows.length, 50)` records. -/
def detectColumnTypes (dp : String → Option Int) (rows : List Row) :
    List ColumnSchema :=
  if rows.isEmpty then []
  else
    let sampleSize := min rows.length 50
    (columnNames rows).map
      (fun col => ⟨col, detectType dp (sampleColumn rows sampleSize col)⟩)

/-- One point of the derived chart series (`x` stays a raw value exactly as
the source passes it to the chart; `y` is a converted number). -/
structure ChartPoint where
  x : Value
  y : JSNum
deriving DecidableEq

/-- Embedding of the chart configuration object. -/
structure ChartSeries where
  xLabel : String
  yLabel : String
  data : List ChartPoint
deriving DecidableEq

/-- The x-column choice of `chartConfig`: the first date/category/text
column of the schema, else the first key of the first record (`none` models
`undefined` when that also does not exist). -/
def xColOf (rows : List Row) (schema : List ColumnSchema) : Option String :=
  match schema.filter
      (fun c => c.type == ColumnType.date || c.type == ColumnType.category ||
        c.type == ColumnType.text) with
  | xc :: _ => some xc.name
  | [] => (columnNames rows).head?

/-- Per-row callback of `chartConfig` in `app/page.tsx`: look the x value
up, reformat it to `toISOString().slice(0, 10)` when the x column's schema
type is `date` and the value makes a valid `Date`, substitute the label
`Row {idx+1}` when the result is falsy, and convert the y value with
`toNumber`. -/
def chartRowPoint (dp : String → Option Int) (rows : List Row)
    (schema : List ColumnSchema) (yCol : String) (idx : Nat) (row : Row) :
    ChartPoint :=
  let xCol? := xColOf rows schema
  let colType? :=
    xCol?.bind (fun xc => (schema.find? (fun s => s.name == xc)).map (fun s => s.type))
  let xVal0 := getCellOpt row xCol?
  let xVal :=
    if colType? == some ColumnType.date then
      match jsNewDateMs dp xVal0 with
      | some t => Value.vStr (toISOSlice t)
      | none => xVal0
    else xVal0
  { x := if jsTruthy xVal then xVal else Value.vStr ("Row " ++ natToString (idx + 1)),
    y := toNumber (getCell row yCol) }

/-- Embedding of the `chartConfig` memo of `app/page.tsx`: `null` for an
empty dataset or when no schema column is typed `number`; otherwise the
first numeric column is the y axis, `xColOf` picks the x axis, and every
row is projected in order.  (`xLabel` would be `undefined` in the source
when the first record has no keys at all; that corner is represented by the
string fallback and is unreachable together with a numeric column.) -/
def chartConfig (dp : String → Option Int) (rows : List Row)
    (schema : List ColumnSchema) : Option ChartSeries :=
  if rows.isEmpty then none
  else
    match schema.filter (fun c => c.type == ColumnType.number) with
    | [] => none
    | yc :: _ =>
      some { xLabel := (xColOf rows schema).getD "undefined",
             yLabel := yc.name,
             data := rows.mapIdx (chartRowPoint dp rows schema yc.name) }

/-- Column counts per semantic type (the `byType` record of the `summary`
memo). -/
structure TypeCounts where
  number : Nat
  date : Nat
  boolean : Nat
  category : Nat
  text : Nat
deriving DecidableEq

/-- One step of the counting loop `byType[col.type] += 1`. -/
def bumpCount (b : TypeCounts) : ColumnType → TypeCounts
  | ColumnType.number => { b with number := b.number + 1 }
  | ColumnType.date => { b with date := b.date + 1 }
  | ColumnType.boolean => { b with boolean := b.boolean + 1 }
  | ColumnType.category => { b with category := b.category + 1 }
  | ColumnType.text => { b with text := b.text + 1 }

/-- Embedding of the `summary` memo of `app/page.tsx`. -/
structure Summary where
  totalRows : Nat
  byType : TypeCounts
deriving DecidableEq

/-- Embedding of the summary computation: total row count plus the column
counts accumulated over the schema from all-zero counts. -/
def summarize (rows : List Row) (schema : List ColumnSchema) : Summary :=
  { totalRows := rows.length,
    byType := schema.foldl (fun acc c => bumpCount acc c.type) ⟨0, 0, 0, 0, 0⟩ }

/-- Sum of the per-type column counts. -/
def sumCounts (b : TypeCounts) : Nat :=
  b.number + b.date + b.boolean + b.category + b.text

/-- Transcription of the claimed classification rule exactly as the spec
words it: sample from the first `min(len, 50)` records excluding
null/undefined/empty-string; `text` for an empty sample; else first match of
`numericRatio > 0.7` → number, `dateRatio > 0.6` → date,
`booleanRatio > 0.6` → boolean, `distinct ≤ 20 ∧ uniqueRatio < 0.7` →
category, else text, where the distinct values are the normalized (string
values trimmed) sample values — with no further exclusion. -/
def claimColumnTypeOrig (dp : String → Option Int) (rows : List Row)
    (col : String) : ColumnType :=
  let sample :=
    ((rows.take (min rows.length 50)).map (fun r => getCell r col)).filter
      (fun v => !(v == Value.vNull) && !(v == Value.vStr ""))
  if sample.isEmpty then ColumnType.text
  else
    let numericRatio : ℚ := mkRat (sample.countP isNumeric : Int) sample.length
    let dateRatio : ℚ := mkRat (sample.countP (isDateLike dp) : Int) sample.length
    let booleanRatio : ℚ := mkRat (sample.countP isBooleanLike : Int) sample.length
    let distinct := ((sample.map normalizeVal).dedup).length
    let uniqueRatio : ℚ := mkRat (distinct : Int) sample.length
    if numericRatio > mkRat 7 10 then ColumnType.number
    else if dateRatio > mkRat 3 5 then ColumnType.date
    else if booleanRatio > mkRat 3 5 then ColumnType.boolean
    else if distinct ≤ 20 ∧ uniqueRatio < mkRat 7 10 then ColumnType.category
    else ColumnType.text

/-- The claimed classifier, as stated: one type per column of the first
record, in order. -/
def claimClassifyOrig (dp : String → Option Int) (rows : List Row) :
    List ColumnSchema :=
  (columnNames rows).map (fun col => ⟨col, claimColumnTypeOrig dp rows col⟩)

/-- The classification rule as the amended claim words it: identical to
`claimColumnTypeOrig` except that values normalizing to the empty string
(and null) are excluded from the distinct-value set before it is counted. -/
def claimColumnType (dp : String → Option Int) (rows : List Row)
    (col : String) : ColumnType :=
  let sample :=
    ((rows.take (min rows.length 50)).map (fun r => getCell r col)).filter
      (fun v => !(v == Value.vNull) && !(v == Value.vStr ""))
  if sample.isEmpty then ColumnType.text
  else
    let numericRatio : ℚ := mkRat (sample.countP isNumeric : Int) sample.length
    let dateRatio : ℚ := mkRat (sample.countP (isDateLike dp) : Int) sample.length
    let booleanRatio : ℚ := mkRat (sample.countP isBooleanLike : Int) sample.length
    let distinct :=
      (((sample.map normalizeVal).filter
        (fun v => !(v == Value.vStr "") && !(v == Value.vNull))).dedup).length
    let uniqueRatio : ℚ := mkRat (distinct : Int) sample.length
    if numericRatio > mkRat 7 10 then ColumnType.number
    else if dateRatio > mkRat 3 5 then ColumnType.date
    else if booleanRatio > mkRat 3 5 then ColumnType.boolean
    else if distinct ≤ 20 ∧ uniqueRatio < mkRat 7 10 then ColumnType.category
    else ColumnType.text

/-- The amended claimed classifier: one type per column of the first
record, in order. -/
def claimClassify (dp : String → Option Int) (rows : List Row) :
    List ColumnSchema :=
  (columnNames rows).map (fun col => ⟨col, claimColumnType dp rows col⟩)

/-- The computed x value of a row as the C7 claim describes it: the raw
cell of the x column (first date/category/text column, else first key),
date-formatted when that column's schema type is `date`. -/
def claimComputedX (dp : String → Option Int) (rows : List Row)
    (schema : List ColumnSchema) (row : Row) : Value :=
  let xCol? := xColOf rows schema
  let colType? :=
    xCol?.bind (fun xc => (schema.find? (fun s => s.name == xc)).map (fun s => s.type))
  let raw := getCellOpt row xCol?
  if colType? == some ColumnType.date then
    match jsNewDateMs dp raw with
    | some t => Value.vStr (toISOSlice t)
    | none => raw
  else raw

/-- A non-empty string consisting of whitespace only (so it survives the
sampling filter but trims to the empty string). -/
def isWhitespaceOnly (v : Value) : Bool :=
  match v with
  | Value.vStr s => !(s == "") && jsTrim s == ""
  | _ => false

theorem ratSub_eq (a b : ℚ) : ratSub a b = a - b := by
  have ha : ((a.den : Int) : ℚ) ≠ 0 := by
    exact_mod_cast (Nat.cast_ne_zero).mpr a.den_nz
  have hb : ((b.den : Int) : ℚ) ≠ 0 := by
    exact_mod_cast (Nat.cast_ne_zero).mpr b.den_nz
  rw [ratSub, Rat.mkRat_eq_div]
  conv_rhs => rw [← Rat.num_div_den a, ← Rat.num_div_den b]
  push_cast
  rw [div_sub_div _ _ (by exact_mod_cast ha) (by exact_mod_cast hb)]
  ring_nf

theorem mapIdx_getElem?' {α β : Type} (f : ℕ → α → β) (l : List α) (i : ℕ) :
    (l.mapIdx f)[i]? = Option.map (f i) l[i]? := by
  rw [List.mapIdx_eq_enum_map, List.getElem?_map, List.getElem?_enum]
  cases l[i]? <;> rfl

theorem toNumber_vStr (s : String) :
    toNumber (Value.vStr s) =
      match jsNumber (stripCommas s) with
      | JSNum.nan => JSNum.fin 0
      | x => x := rfl

theorem isWhitespaceOnly_elim {v : Value} (h : isWhitespaceOnly v = true) :
    ∃ s, v = Value.vStr s ∧ (s == "") = false ∧ jsTrim s = "" := by
  cases v with
  | vStr s =>
    refine ⟨s, rfl, ?_, ?_⟩
    · have := (Bool.and_eq_true _ _).mp h
      simpa using this.1
    · have := (Bool.and_eq_true _ _).mp h
      simpa using this.2
  | vNull => cases h
  | vBool b => cases h
  | vNum q => cases h
  | vDate t => cases h
  | vObj => cases h

/-- Claim C2 (amended): `toNumber` is total and never NaN; passing values
that are neither number nor string gives `0`, strings that fail to parse
give `0`, and the only non-finite outputs are for strings whose
comma-stripped form parses to a signed infinity (such as `"Infinity"`),
which pass that infinity through. -/
theorem c2_toNumber_amended (v : Value) :
    toNumber v ≠ JSNum.nan ∧
    ((∀ q, v ≠ Value.vNum q) → (∀ s, v ≠ Value.vStr s) → toNumber v = JSNum.fin 0) ∧
    (∀ s, v = Value.vStr s → jsNumber (stripCommas s) = JSNum.nan →
      toNumber v = JSNum.fin 0) ∧
    (∀ b, toNumber v = JSNum.inf b →
      ∃ s, v = Value.vStr s ∧ jsNumber (stripCommas s) = JSNum.inf b) := by
  refine ⟨?_, ?_, ?_, ?_⟩
  · cases v with
    | vStr s =>
      rcases hj : jsNumber (stripCommas s) with _ | b | q <;>
        simp [toNumber_vStr, hj]
    | vNum q => simp [toNumber]
    | vNull => simp [toNumber]
    | vBool b => simp [toNumber]
    | vDate t => simp [toNumber]
    | vObj => simp [toNumber]
  · intro hq hs
    cases v with
    | vStr s => exact absurd rfl (hs s)
    | vNum q => exact absurd rfl (hq q)
    | vNull => rfl
    | vBool b => rfl
    | vDate t => rfl
    | vObj => rfl
  · rintro s rfl hj
    rw [toNumber_vStr, hj]
  · intro b hb
    cases v with
    | vStr s =>
      refine ⟨s, rfl, ?_⟩
      rcases hj : jsNumber (stripCommas s) with _ | b2 | q <;>
        rw [toNumber_vStr, hj] at hb
      · cases hb
      · cases hb
        rfl
      · cases hb
    | vNum q => simp [toNumber] at hb
    | vNull => simp [toNumber] at hb
    | vBool bb => simp [toNumber] at hb
    | vDate t => simp [toNumber] at hb
    | vObj => simp [toNumber] at hb

/-- Witness for C2's amended theorem at the concrete input `null`. -/
theorem c2_witness : toNumber Value.vNull = JSNum.fin 0 ∧ toNumber Value.vNull ≠ JSNum.nan :=
  ⟨(c2_toNumber_amended Value.vNull).2.1
      (fun _ h => Value.noConfusion h) (fun _ h => Value.noConfusion h),
    (c2_toNumber_amended Value.vNull).1⟩

/-- Counterexample for C2 as stated: on the garbled-but-parseable string
`"Infinity"` the source returns Infinity, which is not a finite number
(and in particular not `0`). -/
theorem c2_counterexample :
    toNumber (Value.vStr "Infinity") = JSNum.inf false ∧
    ∀ q : ℚ, JSNum.inf false ≠ JSNum.fin q := by
  constructor
  · decide
  · intro q h
    cases h

/-- Claim C3 (amended): `isDateLike` holds exactly for valid `Date` values
and for strings whose trimmed form is non-empty and parses via `Date.parse`;
numbers are never date-like — the spreadsheet-serial range test exists only
in `isExcelSerial`, which `formatDateLabel` uses, not `isDateLike`. -/
theorem c3_isDateLike_amended (dp : String → Option Int) (v : Value) :
    (isDateLike dp v = true ↔
      ((∃ t, v = Value.vDate (some t)) ∨
        (∃ s, v = Value.vStr s ∧ jsTrim s ≠ "" ∧ (dp (jsTrim s)).isSome = true))) ∧
    (∀ q : ℚ, isDateLike dp (Value.vNum q) = false) := by
  refine ⟨?_, fun q => rfl⟩
  cases v with
  | vStr s =>
    by_cases ht : jsTrim s = ""
    · simp [isDateLike, ht]
    · simp [isDateLike, ht]
  | vDate t =>
    cases t with
    | none => simp [isDateLike]
    | some u => simp [isDateLike]
  | vNull => simp [isDateLike]
  | vBool b => simp [isDateLike]
  | vNum q => simp [isDateLike]
  | vObj => simp [isDateLike]

/-- Counterexample for C3 as stated: 30000 lies inside the claimed serial
range `[25000, 60000)` yet `isDateLike` rejects it. -/
theorem c3_counterexample :
    (25000 : ℚ) ≤ 30000 ∧ (30000 : ℚ) < 60000 ∧
    isDateLike dpISO (Value.vNum 30000) = false := by
  refine ⟨by norm_num, by norm_num, rfl⟩

theorem foldl_bumpCount (l : List ColumnSchema) (acc : TypeCounts) :
    sumCounts (l.foldl (fun a c => bumpCount a c.type) acc) = sumCounts acc + l.length := by
  induction l generalizing acc with
  | nil => simp
  | cons c tl ih =>
    rw [List.foldl_cons, ih]
    cases hc : c.type <;> simp [bumpCount, sumCounts] <;> omega

/-- Claim C6: for every dataset and schema, the per-type column counts of
the summary sum to the schema length, and `totalRows` is the dataset
length (an empty schema gives all-zero counts). -/
theorem c6_summary_invariant (rows : List Row) (schema : List ColumnSchema) :
    sumCounts (summarize rows schema).byType = schema.length ∧
    (summarize rows schema).totalRows = rows.length := by
  refine ⟨?_, rfl⟩
  show sumCounts (schema.foldl (fun a c => bumpCount a c.type) ⟨0, 0, 0, 0, 0⟩) = _
  rw [foldl_bumpCount]
  simp [sumCounts]

theorem chartConfig_some_spec (dp : String → Option Int) (rows : List Row)
    (schema : List ColumnSchema) (cfg : ChartSeries)
    (h : chartConfig dp rows schema = some cfg) :
    (schema.filter (fun c => c.type == ColumnType.number)).head?.map ColumnSchema.name
      = some cfg.yLabel ∧
    cfg.data = rows.mapIdx (chartRowPoint dp rows schema cfg.yLabel) := by
  unfold chartConfig at h
  by_cases he : rows.isEmpty
  · rw [if_pos he] at h
    cases h
  · rw [if_neg he] at h
    rcases hf : schema.filter (fun c => c.type == ColumnType.number) with _ | ⟨yc, tl⟩
    · rw [hf] at h
      cases h
    · rw [hf] at h
      cases h
      refine ⟨?_, rfl⟩
      rw [hf]
      rfl

/-- Claim C4: `chartConfig` applied to a dataset and its classified schema
is `none` exactly when no schema column is typed `number` (an empty dataset
classifies to an empty schema, so both sides then hold); in the model this
is a total computation, so the `none` outcome raises nothing. -/
theorem c4_chartConfig_none_iff (dp : String → Option Int) (rows : List Row) :
    chartConfig dp rows (detectColumnTypes dp rows) = none ↔
      ∀ c ∈ detectColumnTypes dp rows, c.type ≠ ColumnType.number := by
  cases rows with
  | nil => simp [chartConfig, detectColumnTypes]
  | cons r rest =>
    unfold chartConfig
    rw [if_neg (by simp)]
    rcases hf : (detectColumnTypes dp (r :: rest)).filter
        (fun c => c.type == ColumnType.number) with _ | ⟨yc, tl⟩
    · rw [hf]
      constructor
      · intro _ c hc
        have hc2 := List.filter_eq_nil_iff.mp hf c hc
        simpa using hc2
      · intro _
        rfl
    · rw [hf]
      constructor
      · intro hcontra
        cases hcontra
      · intro hall
        have hyc : yc ∈ (detectColumnTypes dp (r :: rest)).filter
            (fun c => c.type == ColumnType.number) := by
          rw [hf]
          exact List.mem_cons_self _ _
        have hm := List.mem_filter.mp hyc
        exact absurd (by simpa using hm.2) (hall yc hm.1)

/-- Claim C5: whenever `chartConfig` yields a series, the series has exactly
one entry per dataset row, in row order, the y column is the first
number-typed schema column, and the i-th y value is `toNumber` of row i's
cell in that column (so missing or non-numeric cells contribute what
`toNumber` yields there, never an error). -/
theorem c5_chart_data (dp : String → Option Int) (rows : List Row)
    (schema : List ColumnSchema) (cfg : ChartSeries)
    (h : chartConfig dp rows schema = some cfg) :
    cfg.data.length = rows.length ∧
    (schema.filter (fun c => c.type == ColumnType.number)).head?.map ColumnSchema.name
      = some cfg.yLabel ∧
    ∀ i : Nat, (cfg.data[i]?).map ChartPoint.y
      = (rows[i]?).map (fun row => toNumber (getCell row cfg.yLabel)) := by
  obtain ⟨hy, hd⟩ := chartConfig_some_spec dp rows schema cfg h
  refine ⟨?_, hy, ?_⟩
  · rw [hd, List.length_mapIdx]
  · intro i
    rw [hd, mapIdx_getElem?']
    cases rows[i]? <;> rfl

/-- Claim C7 (amended): in a produced series the label `Row {i+1}` is
substituted for the computed x value exactly when that value is falsy in
the JavaScript sense — `null`/`undefined`, the empty string, the number 0,
or `false` — not only for null/empty values; otherwise the entry carries
the computed x value itself (the raw cell, ISO-date-formatted when the x
column's schema type is `date`). -/
theorem c7_x_substitution_amended (dp : String → Option Int) (rows : List Row)
    (schema : List ColumnSchema) (cfg : ChartSeries)
    (h : chartConfig dp rows schema = some cfg) :
    ∀ i row, rows[i]? = some row →
      (cfg.data[i]?).map ChartPoint.x =
        some (if jsTruthy (claimComputedX dp rows schema row)
              then claimComputedX dp rows schema row
              else Value.vStr ("Row " ++ natToString (i + 1))) := by
  obtain ⟨hy, hd⟩ := chartConfig_some_spec dp rows schema cfg h
  intro i row hr
  rw [hd, mapIdx_getElem?', hr]
  rfl

theorem detectType_eq_claimColumnType (dp : String → Option Int) (rows : List Row)
    (col : String) :
    detectType dp (sampleColumn rows (min rows.length 50) col) =
      claimColumnType dp rows col := by
  unfold detectType claimColumnType sampleColumn
  simp only [List.countP_eq_length_filter]

/-- Claim C1 (amended): the classifier of `detectColumnTypes` computes, for
every dataset, exactly the claimed sampled-ratio cascade — with the one
amendment that values normalizing (trimming) to the empty string are
excluded from the distinct-value set before the cardinality test, as the
`.filter` inside the `new Set(...)` construction does. -/
theorem c1_classifier_amended (dp : String → Option Int) (rows : List Row) :
    detectColumnTypes dp rows = claimClassify dp rows := by
  cases rows with
  | nil => rfl
  | cons r rest =>
    unfold detectColumnTypes claimClassify
    rw [if_neg (by simp)]
    exact List.map_congr_left
      (fun col _ => by rw [← detectType_eq_claimColumnType])

/-- Counterexample for C1 as stated: on the one-record dataset whose only
cell is the one-space string, the code classifies the column `category`
(the trimmed-empty value drops out of the distinct set, leaving 0 ≤ 20
distinct values and unique ratio 0 < 0.7), while the claimed rule, whose
distinct normalized values retain the trimmed value, computes unique ratio
1/1 and falls through to `text`. -/
theorem c1_counterexample :
    detectColumnTypes dpISO [[("c", Value.vStr " ")]] = [⟨"c", ColumnType.category⟩] ∧
    claimClassifyOrig dpISO [[("c", Value.vStr " ")]] = [⟨"c", ColumnType.text⟩] := by
  constructor
  · decide
  · decide

theorem detectType_whitespace (dp : String → Option Int) (sample : List Value)
    (hne : sample ≠ [])
    (hall : ∀ v ∈ sample, isWhitespaceOnly v = true) :
    detectType dp sample = ColumnType.category := by
  have hnum : sample.filter isNumeric = [] := by
    refine List.filter_eq_nil_iff.mpr (fun v hv => ?_)
    obtain ⟨s, rfl, hs0, hst⟩ := isWhitespaceOnly_elim (hall v hv)
    simp [isNumeric, hst]
  have hbool : sample.filter isBooleanLike = [] := by
    refine List.filter_eq_nil_iff.mpr (fun v hv => ?_)
    obtain ⟨s, rfl, hs0, hst⟩ := isWhitespaceOnly_elim (hall v hv)
    simp [isBooleanLike, hst]
    decide
  have hdate : sample.filter (isDateLike dp) = [] := by
    refine List.filter_eq_nil_iff.mpr (fun v hv => ?_)
    obtain ⟨s, rfl, hs0, hst⟩ := isWhitespaceOnly_elim (hall v hv)
    simp [isDateLike, hst]
  have huniq : (sample.map normalizeVal).filter
      (fun v => !(v == Value.vStr "") && !(v == Value.vNull)) = [] := by
    refine List.filter_eq_nil_iff.mpr (fun w hw => ?_)
    obtain ⟨v, hv, rfl⟩ := List.mem_map.mp hw
    obtain ⟨s, rfl, hs0, hst⟩ := isWhitespaceOnly_elim (hall v hv)
    simp [normalizeVal, hst]
  have hlen : 0 < sample.length := List.length_pos.mpr hne
  unfold detectType
  rw [if_neg (by simpa [List.isEmpty_iff] using hne)]
  rw [hnum, hbool, hdate, huniq]
  have h0 : mkRat ((0 : Nat) : Int) sample.length = 0 := by
    simp
  simp only [List.length_nil, List.dedup_nil, h0]
  rw [if_neg, if_neg, if_neg, if_pos]
  · exact ⟨Nat.zero_le 20, by rw [Rat.mkRat_eq_div]; norm_num⟩
  · rw [Rat.mkRat_eq_div]
    norm_num
  · rw [Rat.mkRat_eq_div]
    norm_num
  · rw [Rat.mkRat_eq_div]
    norm_num

/-- Claim C10: a column whose whole sample window consists of non-empty,
whitespace-only strings is classified `category`: the values survive the
sampling filter yet fail the numeric, date and boolean tests, and they drop
out of the distinct-value set after trimming, so the distinct count is
0 ≤ 20 and the unique ratio 0 < 0.7. -/
theorem c10_whitespace_category (dp : String → Option Int) (rows : List Row)
    (col : String) (hcol : col ∈ columnNames rows)
    (hws : ∀ r ∈ rows.take (min rows.length 50), isWhitespaceOnly (getCell r col) = true) :
    ⟨col, ColumnType.category⟩ ∈ detectColumnTypes dp rows := by
  cases rows with
  | nil => cases hcol
  | cons r rest =>
    have hsample : sampleColumn (r :: rest) (min (r :: rest).length 50) col =
        ((r :: rest).take (min (r :: rest).length 50)).map (fun rr => getCell rr col) := by
      unfold sampleColumn
      refine List.filter_eq_self.mpr (fun v hv => ?_)
      obtain ⟨rr, hrr, rfl⟩ := List.mem_map.mp hv
      obtain ⟨s, he, hs0, hst⟩ := isWhitespaceOnly_elim (hws rr hrr)
      rw [he]
      simpa using hs0
    have hne : sampleColumn (r :: rest) (min (r :: rest).length 50) col ≠ [] := by
      rw [hsample]
      have : min (r :: rest).length 50 = min rest.length 49 + 1 := by
        simp [List.length_cons, Nat.succ_min_succ]
      rw [this, List.take_succ_cons]
      simp
    have hall : ∀ v ∈ sampleColumn (r :: rest) (min (r :: rest).length 50) col,
        isWhitespaceOnly v = true := by
      rw [hsample]
      intro v hv
      obtain ⟨rr, hrr, rfl⟩ := List.mem_map.mp hv
      exact hws rr hrr
    have htype := detectType_whitespace dp _ hne hall
    unfold detectColumnTypes
    rw [if_neg (by simp)]
    have hmem :
        (⟨col, ColumnType.category⟩ : ColumnSchema) ∈
          (columnNames (r :: rest)).map
            (fun c => (⟨c, detectType dp
              (sampleColumn (r :: rest) (min (r :: rest).length 50) c)⟩ : ColumnSchema)) := by
      refine List.mem_map.mpr ⟨col, hcol, ?_⟩
      rw [htype]
    exact hmem

/-- Claim C8 (amended): `formatDateLabel` totally maps every value to a
string: a valid date value formats its own time value; a number is treated
as a spreadsheet serial and formats the converted time
`floor(v − 25569) · 86400000` ms (days since 1899-12-30 re-based to the
Unix epoch, times 86400 seconds) exactly when `25000 < v < 60000` — the
recognized range is open at 25000, not closed as the claim's
`[25000, 60000)` has it — and prints its plain string form otherwise; a
string formats its parse when the trimmed form parses as a date and
otherwise stays itself; every other value falls back to its plain string
form. -/
theorem c8_formatDateLabel_amended (fmt : Int → String) (dp : String → Option Int) :
    (∀ t, formatDateLabel fmt dp (Value.vDate (some t)) = fmt t) ∧
    (formatDateLabel fmt dp (Value.vDate none) = "Invalid Date") ∧
    (∀ q : ℚ, formatDateLabel fmt dp (Value.vNum q) =
      if 25000 < q ∧ q < 60000 then fmt ((ratSub q 25569).floor * 86400000)
      else numToString q) ∧
    (∀ s, formatDateLabel fmt dp (Value.vStr s) =
      match dp (jsTrim s) with
      | some t => fmt t
      | none => s) ∧
    (formatDateLabel fmt dp Value.vNull = "null") ∧
    (∀ b, formatDateLabel fmt dp (Value.vBool b) = if b then "true" else "false") ∧
    (formatDateLabel fmt dp Value.vObj = "[object Object]") := by
  refine ⟨fun t => rfl, rfl, fun q => rfl, fun s => ?_, rfl, fun b => rfl, rfl⟩
  rcases hdp : dp (jsTrim s) with _ | t <;> simp [formatDateLabel, jsToString, hdp]

/-- Counterexample for C8 as stated: the boundary serial 25000 lies in the
claimed range `[25000, 60000)` but the source's strict test rejects it, so
the result is the plain string form, not a date label. -/
theorem c8_counterexample :
    formatDateLabel (fun _ => "DATE") dpISO (Value.vNum 25000) = "25000" ∧
    ("25000" : String) ≠ "DATE" := by
  constructor
  · decide
  · decide

/-- Claim C9: scenario A.  On the concrete two-row dataset the classifier
yields amount:number and day:date, and the chart projector yields
xLabel "day", yLabel "amount" with y values 1200 then 980 and x values
that are the date labels of 2024-01-05 and 2024-01-06 in order (this page
renders date labels as ISO `YYYY-MM-DD` strings); `Date.parse` is
instantiated at `dpISO`, the ECMA-262-specified ISO profile. -/
theorem c9_scenario :
    detectColumnTypes dpISO
      [[("amount", Value.vStr "1,200"), ("day", Value.vStr "2024-01-05")],
       [("amount", Value.vStr "980"), ("day", Value.vStr "2024-01-06")]] =
      [⟨"amount", ColumnType.number⟩, ⟨"day", ColumnType.date⟩] ∧
    chartConfig dpISO
      [[("amount", Value.vStr "1,200"), ("day", Value.vStr "2024-01-05")],
       [("amount", Value.vStr "980"), ("day", Value.vStr "2024-01-06")]]
      (detectColumnTypes dpISO
        [[("amount", Value.vStr "1,200"), ("day", Value.vStr "2024-01-05")],
         [("amount", Value.vStr "980"), ("day", Value.vStr "2024-01-06")]]) =
      some ⟨"day", "amount",
        [⟨Value.vStr "2024-01-05", JSNum.fin 1200⟩,
         ⟨Value.vStr "2024-01-06", JSNum.fin 980⟩]⟩ := by
  constructor
  · decide
  · decide

/-- Counterexample for C7 as stated: in the three-row dataset below the x
column `c` is classified `category`, the third row's computed x value is
the number 0 — neither null nor an empty string — yet the chart entry
carries the substituted label `Row 3`, because `0` is falsy in JavaScript. -/
theorem c7_counterexample :
    chartConfig dpISO
      [[("n", Value.vNum 1), ("c", Value.vStr "a")],
       [("n", Value.vNum 2), ("c", Value.vStr "a")],
       [("n", Value.vNum 3), ("c", Value.vNum 0)]]
      (detectColumnTypes dpISO
        [[("n", Value.vNum 1), ("c", Value.vStr "a")],
         [("n", Value.vNum 2), ("c", Value.vStr "a")],
         [("n", Value.vNum 3), ("c", Value.vNum 0)]]) =
      some ⟨"c", "n",
        [⟨Value.vStr "a", JSNum.fin 1⟩, ⟨Value.vStr "a", JSNum.fin 2⟩,
         ⟨Value.vStr "Row 3", JSNum.fin 3⟩]⟩ ∧
    getCell [("n", Value.vNum 3), ("c", Value.vNum 0)] "c" = Value.vNum 0 ∧
    Value.vNum 0 ≠ Value.vNull ∧ (∀ s, Value.vNum 0 ≠ Value.vStr s) := by
  refine ⟨by decide, by decide, by decide, fun s h => Value.noConfusion h⟩

/-- Witness for C7's amended theorem at a concrete one-row dataset. -/
theorem c7_witness :
    ((⟨"c", "n", [⟨Value.vStr "hi", JSNum.fin 2⟩]⟩ : ChartSeries).data[0]?).map
        ChartPoint.x =
      some (if jsTruthy (claimComputedX dpISO
              [[("n", Value.vNum 2), ("c", Value.vStr "hi")]]
              (detectColumnTypes dpISO [[("n", Value.vNum 2), ("c", Value.vStr "hi")]])
              [("n", Value.vNum 2), ("c", Value.vStr "hi")])
            then claimComputedX dpISO
              [[("n", Value.vNum 2), ("c", Value.vStr "hi")]]
              (detectColumnTypes dpISO [[("n", Value.vNum 2), ("c", Value.vStr "hi")]])
              [("n", Value.vNum 2), ("c", Value.vStr "hi")]
            else Value.vStr ("Row " ++ natToString (0 + 1))) :=
  c7_x_substitution_amended dpISO
    [[("n", Value.vNum 2), ("c", Value.vStr "hi")]]
    (detectColumnTypes dpISO [[("n", Value.vNum 2), ("c", Value.vStr "hi")]])
    ⟨"c", "n", [⟨Value.vStr "hi", JSNum.fin 2⟩]⟩
    (by decide) 0 [("n", Value.vNum 2), ("c", Value.vStr "hi")] (by decide)

/-- Witness for C5's theorem at a concrete one-row dataset. -/
theorem c5_witness :
    (⟨"a", "a", [⟨Value.vNum 1, JSNum.fin 1⟩]⟩ : ChartSeries).data.length =
      ([[("a", Value.vNum 1)]] : List Row).length :=
  (c5_chart_data dpISO [[("a", Value.vNum 1)]]
    (detectColumnTypes dpISO [[("a", Value.vNum 1)]])
    ⟨"a", "a", [⟨Value.vNum 1, JSNum.fin 1⟩]⟩ (by decide)).1

/-- Witness for C10's theorem at a concrete one-row dataset whose only cell
is a two-space string. -/
theorem c10_witness :
    (⟨"w", ColumnType.category⟩ : ColumnSchema) ∈
      detectColumnTypes dpISO [[("w", Value.vStr "  ")]] :=
  c10_whitespace_category dpISO [[("w", Value.vStr "  ")]] "w" (by decide) (by decide)
